import Mathlib

/-!
Verification of the ccflare response classifier, proxy attempt operations
and OAuth account-provisioning flow, as a shallow embedding of the
TypeScript sources.  Database mutations performed through the async writer
are modelled as explicit lists of `DbOp` values returned by the functions
that enqueue them; JavaScript truthiness tests on optional values are
modelled explicitly (`none` and `some 0` / `some ""` are falsy).
-/

namespace Ccflare

/-- A database mutation enqueued on the async writer (`ctx.asyncWriter.enqueue`). -/
inductive DbOp where
  | markAccountRateLimited (accountId : String) (resetTime : Nat)
  | updateAccountUsage (accountId : String)
  | updateAccountRateLimitMeta (accountId : String) (status : String)
      (resetTime : Option Nat) (remaining : Option Nat)
  | updateAccountTier (accountId : String) (tier : Nat)
  deriving DecidableEq, Repr

/-- JavaScript truthiness of an optional number (`null`, `undefined` and `0` are falsy). -/
def optNatTruthy : Option Nat → Bool
  | none => false
  | some n => n != 0

/-- JavaScript truthiness of an optional string (`null`, `undefined` and `""` are falsy). -/
def optStrTruthy : Option String → Bool
  | none => false
  | some s => s != ""

/-- Result of `provider.parseRateLimit(response)` (the `RateLimitSignal`). -/
structure RateLimitInfo where
  isRateLimited : Bool
  resetTime : Option Nat
  statusHeader : Option String
  remaining : Option Nat
  deriving DecidableEq, Repr

/-- An upstream HTTP response, reduced to the data the classifier inspects. -/
structure Response where
  status : Nat
  deriving DecidableEq, Repr

/-- The fields of an `Account` used by the classifier and attempt operations. -/
structure Account where
  id : String
  name : String
  account_tier : Nat
  api_key : Option String
  deriving DecidableEq, Repr

/-- The provider adapter as seen from the classifier: `parseRateLimit`,
the optional `isStreamingResponse` and the optional `extractTierInfo`. -/
structure Provider where
  name : String
  parseRateLimit : Response → RateLimitInfo
  isStreamingResponse : Option (Response → Bool)
  extractTierInfo : Option (Response → Option Nat)

/-- Evaluates `ctx.provider.isStreamingResponse?.(response) ?? false`. -/
def isStreamB (provider : Provider) (response : Response) : Bool :=
  match provider.isStreamingResponse with
  | some f => f response
  | none => false

/-- The `SUCCESS_STATUS_CODES` set: status codes that do not trigger failover. -/
def SUCCESS_STATUS_CODES : List Nat := [200]

/-- Embeds `handleRateLimitResponse`: enqueues `markAccountRateLimited(account.id, resetTime)`
unless `rateLimitInfo.resetTime` is falsy (the early `return`). -/
def handleRateLimitResponse (account : Account) (rateLimitInfo : RateLimitInfo) :
    List DbOp :=
  match rateLimitInfo.resetTime with
  | none => []
  | some t => if t != 0 then [DbOp.markAccountRateLimited account.id t] else []

/-- The rate-limit-meta block of `updateAccountMetadata`: enqueues
`updateAccountRateLimitMeta` only when `rateLimitInfo.statusHeader` is truthy. -/
def metaOpsOf (account : Account) (rateLimitInfo : RateLimitInfo) : List DbOp :=
  match rateLimitInfo.statusHeader with
  | none => []
  | some s =>
    if s != "" then
      [DbOp.updateAccountRateLimitMeta account.id s rateLimitInfo.resetTime
        rateLimitInfo.remaining]
    else []

/-- The tier block of `updateAccountMetadata`: enqueues `updateAccountTier`
only when the provider supports tier extraction and extracts a truthy tier
different from the current tier of the account. -/
def tierOpsOf (provider : Provider) (account : Account) (response : Response) :
    List DbOp :=
  match provider.extractTierInfo with
  | none => []
  | some f =>
    match f response with
    | none => []
    | some tier =>
      if tier != 0 && tier != account.account_tier then
        [DbOp.updateAccountTier account.id tier]
      else []

/-- Embeds `updateAccountMetadata`: enqueues `updateAccountUsage`, then the
rate-limit-meta block, then the tier block. -/
def updateAccountMetadata (provider : Provider) (account : Account)
    (response : Response) : List DbOp :=
  DbOp.updateAccountUsage account.id ::
    (metaOpsOf account (provider.parseRateLimit response)
      ++ tierOpsOf provider account response)

/-- The guard of the rate-limit branch of `processProxyResponse`:
`!isStream && rateLimitInfo.isRateLimited && rateLimitInfo.resetTime` (truthy). -/
def rateLimitBranch (provider : Provider) (response : Response) : Bool :=
  !(isStreamB provider response)
    && (provider.parseRateLimit response).isRateLimited
    && optNatTruthy (provider.parseRateLimit response).resetTime

/-- Embeds `processProxyResponse`: returns whether failover should occur, paired with the
database operations enqueued for this response.  Rate-limit branch:
`handleRateLimitResponse` then `updateAccountMetadata`, failover.  Non-success
branch (status not in `SUCCESS_STATUS_CODES`): no operations, failover.
Success branch: `updateAccountMetadata`, no failover. -/
def processProxyResponse (provider : Provider) (response : Response)
    (account : Account) : Bool × List DbOp :=
  let rateLimitInfo := provider.parseRateLimit response
  if !(isStreamB provider response) && rateLimitInfo.isRateLimited
      && optNatTruthy rateLimitInfo.resetTime then
    (true, handleRateLimitResponse account rateLimitInfo
             ++ updateAccountMetadata provider account response)
  else if !(SUCCESS_STATUS_CODES.contains response.status) then
    (true, [])
  else
    (false, updateAccountMetadata provider account response)

/-- An error surfaced inside a proxy attempt: token acquisition
(`AuthError` / `TransientAuthError`), the upstream call, or response delivery. -/
inductive ProxyAttemptError where
  | authError (msg : String)
  | transientAuthError (msg : String)
  | upstreamError (msg : String)
  | deliveryError (msg : String)
  deriving DecidableEq, Repr

/-- Hop-by-hop headers stripped by the provider adapter. -/
def HOP_BY_HOP : List String :=
  ["host", "connection", "content-length", "transfer-encoding", "keep-alive",
   "proxy-authorization", "te", "trailer", "upgrade"]

/-- Modelled from the spec: `prepare_headers` of the provider adapter (the
providers package is not under src/).  Copies incoming headers except
hop-by-hop and any existing `authorization` / `x-api-key`; if an access token
is given adds `Authorization: Bearer` and the version header, else if an api
key is given adds `x-api-key` and the version header; adds neither when both
are absent. -/
def prepareHeaders (incoming : List (String × String))
    (accessToken : Option String) (apiKey : Option String) :
    List (String × String) :=
  let base := incoming.filter fun h =>
    !(HOP_BY_HOP.contains h.1 || h.1 == "authorization" || h.1 == "x-api-key")
  match accessToken with
  | some tok =>
    base ++ [("authorization", "Bearer " ++ tok), ("anthropic-version", "2023-06-01")]
  | none =>
    match apiKey with
    | some key => base ++ [("x-api-key", key), ("anthropic-version", "2023-06-01")]
    | none => base

/-- A `ProviderError` as thrown by `proxyUnauthenticated` on upstream failure. -/
structure ProviderError where
  message : String
  providerName : String
  statusCode : Nat
  deriving DecidableEq, Repr

/-- The parameters `forwardToClient` is called with, reduced to the fields the
claims are about (the account attributed to the usage record and the failover
counters). -/
structure ForwardParams where
  account : Option Account
  response : Response
  retryAttempt : Nat
  failoverAttempts : Nat
  deriving DecidableEq, Repr

/-- The `ERROR_MESSAGES.UNAUTHENTICATED_FAILED` text (proxy-types is not under src/;
the exact text is irrelevant to the claims, only the 502 status is). -/
def UNAUTHENTICATED_FAILED : String := "Unauthenticated request failed"

/-- Embeds `proxyUnauthenticated`: prepares headers with neither access token nor api
key, forwards, and on success hands `forwardToClient` a record with
`account := none`; on upstream failure throws a `ProviderError` with status
502.  The upstream call's outcome is passed in as `forwardResult`; the
prepared headers are returned alongside for inspection. -/
def proxyUnauthenticated (incomingHeaders : List (String × String))
    (forwardResult : Except String Response) (providerName : String) :
    List (String × String) × Except ProviderError ForwardParams :=
  let headers := prepareHeaders incomingHeaders none none
  match forwardResult with
  | Except.ok response =>
    (headers, Except.ok
      { account := none, response := response, retryAttempt := 0,
        failoverAttempts := 0 })
  | Except.error _ =>
    (headers, Except.error
      { message := UNAUTHENTICATED_FAILED, providerName := providerName,
        statusCode := 502 })

/-- The body of `proxyWithAccount` before its catch-all: acquire a token,
forward upstream, classify via `processProxyResponse`; on failover return
`none` (try next account), else deliver the response to the client.  The
enqueued database operations are threaded outside the exception monad, since
operations enqueued before a later throw remain enqueued. -/
def proxyWithAccountBody (provider : Provider) (account : Account)
    (tokenResult : Except ProxyAttemptError (Option String))
    (forwardResult : Except ProxyAttemptError Response)
    (deliver : Response → Except ProxyAttemptError Response) :
    List DbOp × Except ProxyAttemptError (Option Response) :=
  match tokenResult with
  | Except.error e => ([], Except.error e)
  | Except.ok _accessToken =>
    match forwardResult with
    | Except.error e => ([], Except.error e)
    | Except.ok response =>
      let result := processProxyResponse provider response account
      if result.1 then
        (result.2, Except.ok none)
      else
        match deliver response with
        | Except.error e => (result.2, Except.error e)
        | Except.ok out => (result.2, Except.ok (some out))

/-- Embeds `proxyWithAccount`: the whole attempt body runs inside `try ... catch`;
any error is logged (`handleProxyError`) and absorbed, the function returning
`none` to signal the orchestrator to continue with the next candidate. -/
def proxyWithAccount (provider : Provider) (account : Account)
    (tokenResult : Except ProxyAttemptError (Option String))
    (forwardResult : Except ProxyAttemptError Response)
    (deliver : Response → Except ProxyAttemptError Response) :
    List DbOp × Option Response :=
  match proxyWithAccountBody provider account tokenResult forwardResult deliver with
  | (ops, Except.ok r) => (ops, r)
  | (ops, Except.error _) => (ops, none)

/-- Modelled from the spec: the orchestrator attempt loop (§4.9), whose code
is not under src/.  Attempts are tried in order; an attempt whose
classification signals failover contributes its enqueued operations and the
loop continues; the first successful attempt contributes its operations and
ends the loop with its account. -/
def runFailover (provider : Provider) :
    List (Account × Response) → Option Account × List DbOp
  | [] => (none, [])
  | (account, response) :: rest =>
    let result := processProxyResponse provider response account
    if result.1 then
      let tail := runFailover provider rest
      (tail.1, result.2 ++ tail.2)
    else
      (some account, result.2)

/-- Is this operation a usage-counter increment? -/
def isUsageOp : DbOp → Bool
  | DbOp.updateAccountUsage _ => true
  | _ => false

/-- A row of the `accounts` table as inserted by the OAuth flow. -/
structure AccountRow where
  id : String
  name : String
  provider : String
  api_key : Option String
  refresh_token : Option String
  access_token : Option String
  expires_at : Option Nat
  created_at : Nat
  request_count : Nat
  total_requests : Nat
  account_tier : Nat
  base_url : Option String
  deriving DecidableEq, Repr

/-- Tokens returned by the OAuth code exchange (`OAuthTokens`). -/
structure OAuthTokens where
  accessToken : String
  refreshToken : Option String
  expiresAt : Nat
  deriving DecidableEq, Repr

/-- OAuth flow mode: "max" (standard OAuth) or "console" (static API key). -/
inductive Mode where
  | max
  | console
  deriving DecidableEq, Repr

/-- Evaluates `baseUrl || null`: an empty string collapses to null. -/
def jsOrNull (s : Option String) : Option String :=
  if optStrTruthy s then s else none

/-- The data `begin` returns (`BeginResult`), reduced to what `complete` uses. -/
structure BeginResult where
  sessionId : String
  authUrl : String
  mode : Mode
  baseUrl : Option String
  deriving DecidableEq, Repr

/-- The `AccountCreated` summary returned by `complete`. -/
structure AccountCreated where
  id : String
  name : String
  tier : Nat
  provider : String
  authType : String
  deriving DecidableEq, Repr

/-- Embeds `OAuthFlow.begin`: rejects a name already present among the stored
accounts, requires the OAuth provider to exist, and otherwise builds the
`BeginResult` without touching the accounts table.  The table is passed in
and returned so that absence of writes is part of the statement; `authUrl`
and `sessionId` generation are passed in as parameters (PKCE and UUID
generation are effectful). -/
def OAuthFlow.begin (table : List AccountRow) (name : String) (mode : Mode)
    (baseUrl : Option String) (oauthProviderExists : Bool) (authUrl : String)
    (sessionId : String) : Except String BeginResult × List AccountRow :=
  if table.any fun a => a.name == name then
    (Except.error ("Account with name " ++ name ++ " already exists"), table)
  else if !oauthProviderExists then
    (Except.error "Anthropic OAuth provider not found", table)
  else
    (Except.ok { sessionId := sessionId, authUrl := authUrl, mode := mode,
                 baseUrl := baseUrl }, table)

/-- Embeds `OAuthFlow.createAccountWithOAuth`: inserts a max-mode account row with
`api_key` NULL, `refresh_token` set to the exchanged refresh token (empty
string when absent), non-null `access_token` and `expires_at`, and both
request counters 0. -/
def OAuthFlow.createAccountWithOAuth (table : List AccountRow) (id name : String)
    (tokens : OAuthTokens) (tier : Nat) (baseUrl : Option String) (now : Nat) :
    AccountCreated × List AccountRow :=
  let row : AccountRow :=
    { id := id, name := name, provider := "anthropic",
      api_key := none,
      refresh_token := some (tokens.refreshToken.getD ""),
      access_token := some tokens.accessToken,
      expires_at := some tokens.expiresAt,
      created_at := now,
      request_count := 0, total_requests := 0,
      account_tier := tier,
      base_url := jsOrNull baseUrl }
  ({ id := id, name := name, tier := tier, provider := "anthropic",
     authType := "oauth" }, table ++ [row])

/-- Embeds `OAuthFlow.createAccountWithApiKey`: inserts a console-mode account row
with a non-null `api_key` and NULL `refresh_token`, `access_token` and
`expires_at`, and both request counters 0. -/
def OAuthFlow.createAccountWithApiKey (table : List AccountRow) (id name : String)
    (apiKey : String) (tier : Nat) (baseUrl : Option String) (now : Nat) :
    AccountCreated × List AccountRow :=
  let row : AccountRow :=
    { id := id, name := name, provider := "anthropic",
      api_key := some apiKey,
      refresh_token := none,
      access_token := none,
      expires_at := none,
      created_at := now,
      request_count := 0, total_requests := 0,
      account_tier := tier,
      base_url := jsOrNull baseUrl }
  ({ id := id, name := name, tier := tier, provider := "anthropic",
     authType := "api_key" }, table ++ [row])

/-- Embeds `OAuthFlow.createAnthropicApiKey`: refuses a custom base URL, then calls
the Anthropic console endpoint; the network outcome is passed in as
`apiKeyResult`. -/
def OAuthFlow.createAnthropicApiKey (baseUrl : Option String)
    (apiKeyResult : Except String String) : Except String String :=
  if optStrTruthy baseUrl && baseUrl.getD "" != "https://api.anthropic.com" then
    Except.error
      "Custom base URL accounts should use direct API key input, not OAuth API key creation"
  else
    apiKeyResult

/-- Embeds `OAuthFlow.complete`: exchanges the code for tokens (outcome passed in as
`exchangeResult`), then either takes the console path (mode "console" or no
refresh token): reject any custom base URL, create an API key, insert an
api-key row; or the max path: insert an OAuth row.  Returns the resulting
accounts table alongside. -/
def OAuthFlow.complete (table : List AccountRow) (flowData : BeginResult)
    (name : String) (tier : Nat) (oauthProviderExists : Bool)
    (exchangeResult : Except String OAuthTokens)
    (apiKeyResult : Except String String) (accountId : String) (now : Nat) :
    Except String AccountCreated × List AccountRow :=
  if !oauthProviderExists then
    (Except.error "Anthropic OAuth provider not found", table)
  else
    match exchangeResult with
    | Except.error e => (Except.error e, table)
    | Except.ok tokens =>
      if flowData.mode == Mode.console || !optStrTruthy tokens.refreshToken then
        if optStrTruthy flowData.baseUrl then
          (Except.error
            "Console mode with custom base URL should use direct API key input, not OAuth flow",
           table)
        else
          match OAuthFlow.createAnthropicApiKey flowData.baseUrl apiKeyResult with
          | Except.error e => (Except.error e, table)
          | Except.ok apiKey =>
            let r := OAuthFlow.createAccountWithApiKey table accountId name apiKey
                       tier flowData.baseUrl now
            (Except.ok r.1, r.2)
      else
        let r := OAuthFlow.createAccountWithOAuth table accountId name tokens
                   tier flowData.baseUrl now
        (Except.ok r.1, r.2)

/-! Concrete fixtures used by witnesses and counterexamples. -/

/-- A concrete account. -/
def acctA : Account :=
  { id := "acc-1", name := "A", account_tier := 1, api_key := none }

/-- A second concrete account. -/
def acctB : Account :=
  { id := "acc-2", name := "B", account_tier := 1, api_key := none }

/-- A rate-limited signal with a reset time but no status header. -/
def sigRL : RateLimitInfo :=
  { isRateLimited := true, resetTime := some 1000, statusHeader := none,
    remaining := none }

/-- A rate-limited signal with a reset time and a status header. -/
def sigRLHeader : RateLimitInfo :=
  { isRateLimited := true, resetTime := some 1000,
    statusHeader := some "rate_limited", remaining := some 0 }

/-- A non-rate-limited signal. -/
def sigOK : RateLimitInfo :=
  { isRateLimited := false, resetTime := none, statusHeader := some "allowed",
    remaining := some 100 }

/-- A non-rate-limited signal with no headers at all. -/
def sigNone : RateLimitInfo :=
  { isRateLimited := false, resetTime := none, statusHeader := none,
    remaining := none }

/-- A provider that reports every response with the given signal and no
streaming detection. -/
def provOf (sig : RateLimitInfo) : Provider :=
  { name := "anthropic", parseRateLimit := fun _ => sig,
    isStreamingResponse := none, extractTierInfo := none }

/-- A provider that classifies every response as streaming and reports a
rate-limited signal. -/
def provStream : Provider :=
  { name := "anthropic", parseRateLimit := fun _ => sigRLHeader,
    isStreamingResponse := some fun _ => true, extractTierInfo := none }

/-- A provider that reports a rate-limited signal on a 429 and a clean signal
otherwise. -/
def provByStatus : Provider :=
  { name := "anthropic",
    parseRateLimit := fun r => if r.status == 429 then sigRL else sigOK,
    isStreamingResponse := none, extractTierInfo := none }

/-- A provider with clean signals throughout (plain non-success failures). -/
def provPlain : Provider :=
  { name := "anthropic", parseRateLimit := fun _ => sigNone,
    isStreamingResponse := none, extractTierInfo := none }

/-- A stored account row named A (api-key mode). -/
def rowA : AccountRow :=
  { id := "id-A", name := "A", provider := "anthropic",
    api_key := some "sk-stored", refresh_token := none, access_token := none,
    expires_at := none, created_at := 0, request_count := 0,
    total_requests := 0, account_tier := 1, base_url := none }

/-- A console-mode flow carrying a custom base URL. -/
def flowConsole : BeginResult :=
  { sessionId := "sid", authUrl := "url", mode := Mode.console,
    baseUrl := some "https://proxy.example.com" }

/-- Exchanged tokens carrying a refresh token. -/
def tokensMax : OAuthTokens :=
  { accessToken := "at", refreshToken := some "rt", expiresAt := 99 }

/-! Helper lemmas. -/

/-- Every op of the rate-limit-meta block is an `updateAccountRateLimitMeta`
for a truthy status header. -/
theorem mem_metaOpsOf (a : Account) (info : RateLimitInfo) (op : DbOp)
    (h : op ∈ metaOpsOf a info) :
    ∃ s, info.statusHeader = some s ∧ s ≠ ""
      ∧ op = DbOp.updateAccountRateLimitMeta a.id s info.resetTime
          info.remaining := by
  unfold metaOpsOf at h
  revert h
  split
  · intro h
    simp at h
  · rename_i s hsh
    split
    · rename_i hne
      intro h
      rw [List.mem_singleton] at h
      exact ⟨s, hsh, by simpa using hne, h⟩
    · intro h
      simp at h

/-- Every op of the tier block is an `updateAccountTier`. -/
theorem mem_tierOpsOf (p : Provider) (a : Account) (r : Response) (op : DbOp)
    (h : op ∈ tierOpsOf p a r) :
    ∃ t, op = DbOp.updateAccountTier a.id t := by
  unfold tierOpsOf at h
  revert h
  split
  · intro h
    simp at h
  · split
    · intro h
      simp at h
    · split
      · intro h
        rw [List.mem_singleton] at h
        exact ⟨_, h⟩
      · intro h
        simp at h

/-- The rate-limit-meta block is nonempty iff the status header is truthy. -/
theorem metaOpsOf_eq (a : Account) (info : RateLimitInfo) :
    metaOpsOf a info
      = if optStrTruthy info.statusHeader then
          [DbOp.updateAccountRateLimitMeta a.id (info.statusHeader.getD "")
            info.resetTime info.remaining]
        else [] := by
  rcases hsh : info.statusHeader with _ | s <;>
    simp [metaOpsOf, optStrTruthy, hsh]

/-- The metadata update never enqueues a rate-limit mark. -/
theorem mark_not_mem_updateAccountMetadata (p : Provider) (a : Account)
    (r : Response) (id : String) (t : Nat) :
    DbOp.markAccountRateLimited id t ∉ updateAccountMetadata p a r := by
  intro h
  unfold updateAccountMetadata at h
  simp only [List.mem_cons, List.mem_append] at h
  rcases h with h | h | h
  · exact DbOp.noConfusion h
  · obtain ⟨s, _, _, heq⟩ := mem_metaOpsOf a _ _ h
    exact DbOp.noConfusion heq
  · obtain ⟨tr, htr⟩ := mem_tierOpsOf p a r _ h
    exact DbOp.noConfusion htr

/-- The usage ops of the metadata update are exactly one increment for the
account. -/
theorem usage_filter_updateAccountMetadata (p : Provider) (a : Account)
    (r : Response) :
    (updateAccountMetadata p a r).filter isUsageOp
      = [DbOp.updateAccountUsage a.id] := by
  unfold updateAccountMetadata
  rw [List.filter_cons]
  have hmeta : (metaOpsOf a (p.parseRateLimit r)).filter isUsageOp = [] := by
    rw [List.filter_eq_nil_iff]
    intro op hop
    obtain ⟨s, _, _, heq⟩ := mem_metaOpsOf a _ _ hop
    rw [heq]
    simp [isUsageOp]
  have htier : (tierOpsOf p a r).filter isUsageOp = [] := by
    rw [List.filter_eq_nil_iff]
    intro op hop
    obtain ⟨t, ht⟩ := mem_tierOpsOf p a r _ hop
    rw [ht]
    simp [isUsageOp]
  simp [isUsageOp, List.filter_append, hmeta, htier]

/-- A rate-limit-meta op for the account is in the metadata update iff the
status header is truthy. -/
theorem meta_mem_updateAccountMetadata (p : Provider) (a : Account)
    (r : Response) :
    (∃ s rt rem, DbOp.updateAccountRateLimitMeta a.id s rt rem
        ∈ updateAccountMetadata p a r)
      ↔ optStrTruthy (p.parseRateLimit r).statusHeader = true := by
  constructor
  · rintro ⟨s, rt, rem, h⟩
    unfold updateAccountMetadata at h
    simp only [List.mem_cons, List.mem_append] at h
    rcases h with h | h | h
    · exact DbOp.noConfusion h
    · obtain ⟨s1, hsh, hne, heq⟩ := mem_metaOpsOf a _ _ h
      rw [hsh]
      simpa [optStrTruthy] using hne
    · obtain ⟨t, ht⟩ := mem_tierOpsOf p a r _ h
      exact DbOp.noConfusion ht
  · intro hs
    refine ⟨(p.parseRateLimit r).statusHeader.getD "",
      (p.parseRateLimit r).resetTime, (p.parseRateLimit r).remaining, ?_⟩
    unfold updateAccountMetadata
    simp only [List.mem_cons, List.mem_append]
    right; left
    rw [metaOpsOf_eq, hs]
    simp

/-- A truthy reset time yields exactly the rate-limit mark with that time. -/
theorem handleRateLimitResponse_eq (a : Account) (info : RateLimitInfo)
    (h : optNatTruthy info.resetTime = true) :
    ∃ t, info.resetTime = some t
      ∧ handleRateLimitResponse a info = [DbOp.markAccountRateLimited a.id t] := by
  rcases hrt : info.resetTime with _ | t
  · rw [hrt] at h
    simp [optNatTruthy] at h
  · rw [hrt] at h
    refine ⟨t, rfl, ?_⟩
    unfold handleRateLimitResponse
    rw [hrt]
    simp [optNatTruthy] at h
    simp [h]

/-- With the rate-limit guard true, the classifier takes the rate-limit
branch. -/
theorem processProxyResponse_rateLimit (p : Provider) (r : Response)
    (a : Account) (h : rateLimitBranch p r = true) :
    processProxyResponse p r a
      = (true, handleRateLimitResponse a (p.parseRateLimit r)
           ++ updateAccountMetadata p a r) := by
  unfold rateLimitBranch at h
  unfold processProxyResponse
  simp only [h, if_true]

/-- With the rate-limit guard false and a non-200 status, the classifier takes
the non-success branch: failover, no operations. -/
theorem processProxyResponse_nonSuccess (p : Provider) (r : Response)
    (a : Account) (h : rateLimitBranch p r = false) (hs : r.status ≠ 200) :
    processProxyResponse p r a = (true, []) := by
  unfold rateLimitBranch at h
  simp [processProxyResponse, h, SUCCESS_STATUS_CODES, hs]

/-- With the rate-limit guard false and status 200, the classifier takes the
success branch: no failover, metadata update. -/
theorem processProxyResponse_success (p : Provider) (r : Response)
    (a : Account) (h : rateLimitBranch p r = false) (hs : r.status = 200) :
    processProxyResponse p r a = (false, updateAccountMetadata p a r) := by
  unfold rateLimitBranch at h
  simp [processProxyResponse, h, SUCCESS_STATUS_CODES, hs]

/-- A streaming response makes the rate-limit guard false. -/
theorem rateLimitBranch_of_stream (p : Provider) (r : Response)
    (h : isStreamB p r = true) : rateLimitBranch p r = false := by
  unfold rateLimitBranch
  rw [h]
  simp

/-! Claim theorems. -/

/-- C1 (amended): for every response that is not classified as streaming and
whose parsed signal has `is_rate_limited` true and a truthy (non-zero)
`reset_at`, the classifier signals failover, enqueues `mark_rate_limited` for
the attempted account with exactly that `reset_at`, and enqueues a
rate-limit-meta update if and only if the signal's status tag is truthy. -/
theorem c1_rate_limit_classification (p : Provider) (r : Response) (a : Account)
    (h : rateLimitBranch p r = true) :
    (processProxyResponse p r a).1 = true
    ∧ (∃ t, (p.parseRateLimit r).resetTime = some t
        ∧ DbOp.markAccountRateLimited a.id t ∈ (processProxyResponse p r a).2)
    ∧ ((∃ s rt rem, DbOp.updateAccountRateLimitMeta a.id s rt rem
          ∈ (processProxyResponse p r a).2)
        ↔ optStrTruthy (p.parseRateLimit r).statusHeader = true) := by
  have htr : optNatTruthy (p.parseRateLimit r).resetTime = true := by
    unfold rateLimitBranch at h
    simp only [Bool.and_eq_true] at h
    exact h.2
  obtain ⟨t, hrt, hhandle⟩ := handleRateLimitResponse_eq a _ htr
  have hops := processProxyResponse_rateLimit p r a h
  rw [hops]
  refine ⟨rfl, ⟨t, hrt, ?_⟩, ?_⟩
  · show DbOp.markAccountRateLimited a.id t
      ∈ handleRateLimitResponse a (p.parseRateLimit r) ++ updateAccountMetadata p a r
    rw [hhandle]
    simp
  · constructor
    · rintro ⟨s, rt1, rem, hm⟩
      rcases List.mem_append.1 hm with hm | hm
      · rw [hhandle, List.mem_singleton] at hm
        exact DbOp.noConfusion hm
      · exact (meta_mem_updateAccountMetadata p a r).1 ⟨s, rt1, rem, hm⟩
    · intro hs
      obtain ⟨s, rt1, rem, hm⟩ := (meta_mem_updateAccountMetadata p a r).2 hs
      exact ⟨s, rt1, rem, List.mem_append_right _ hm⟩

/-- C1 witness: a non-streaming 429 with a rate-limited signal, reset time
1000 and a status header exercises the amended claim. -/
theorem c1_witness :
    rateLimitBranch (provOf sigRLHeader) ⟨429⟩ = true
    ∧ ((processProxyResponse (provOf sigRLHeader) ⟨429⟩ acctA).1 = true
      ∧ (∃ t, ((provOf sigRLHeader).parseRateLimit ⟨429⟩).resetTime = some t
          ∧ DbOp.markAccountRateLimited acctA.id t
              ∈ (processProxyResponse (provOf sigRLHeader) ⟨429⟩ acctA).2)
      ∧ ((∃ s rt rem, DbOp.updateAccountRateLimitMeta acctA.id s rt rem
            ∈ (processProxyResponse (provOf sigRLHeader) ⟨429⟩ acctA).2)
          ↔ optStrTruthy
              ((provOf sigRLHeader).parseRateLimit ⟨429⟩).statusHeader = true)) :=
  ⟨by decide,
   c1_rate_limit_classification (provOf sigRLHeader) ⟨429⟩ acctA (by decide)⟩

/-- C1 counterexample: a streaming 429 whose signal is rate-limited with a
reset time present is classified with no `mark_rate_limited` at all (failover
with empty operations), and a non-streaming rate-limited 429 without a status
header enqueues no rate-limit-meta update — contradicting the claim that the
mark and the meta update are enqueued regardless of any other property of the
response. -/
theorem c1_counterexample :
    processProxyResponse provStream ⟨429⟩ acctA = (true, [])
    ∧ processProxyResponse (provOf sigRL) ⟨429⟩ acctA
        = (true, [DbOp.markAccountRateLimited "acc-1" 1000,
                  DbOp.updateAccountUsage "acc-1"]) := by
  decide

/-- C3: for every response whose status is not 200 and whose signal does not
satisfy the rate-limited-with-reset condition, the classifier signals
failover and enqueues no operation at all. -/
theorem c3_non_success_no_mutation (p : Provider) (r : Response) (a : Account)
    (hs : r.status ≠ 200)
    (hrl : ¬((p.parseRateLimit r).isRateLimited = true
              ∧ ((p.parseRateLimit r).resetTime).isSome = true)) :
    processProxyResponse p r a = (true, []) := by
  apply processProxyResponse_nonSuccess p r a _ hs
  unfold rateLimitBranch
  rcases hb : (p.parseRateLimit r).isRateLimited
  · simp [hb]
  · have hnt : optNatTruthy (p.parseRateLimit r).resetTime = false := by
      rcases hrt : (p.parseRateLimit r).resetTime with _ | t
      · simp [optNatTruthy]
      · exact absurd ⟨hb, by rw [hrt]; rfl⟩ hrl
    simp [hnt]

/-- C3 witness: a 500 with a clean rate-limit signal triggers failover with
no enqueued operation. -/
theorem c3_witness :
    ((⟨500⟩ : Response).status ≠ 200
      ∧ ¬(((provOf sigNone).parseRateLimit ⟨500⟩).isRateLimited = true
            ∧ (((provOf sigNone).parseRateLimit ⟨500⟩).resetTime).isSome = true))
    ∧ processProxyResponse (provOf sigNone) ⟨500⟩ acctA = (true, []) :=
  ⟨⟨by decide, by decide⟩,
   c3_non_success_no_mutation (provOf sigNone) ⟨500⟩ acctA (by decide) (by decide)⟩

/-- C4: for every response with status exactly 200 that is not classified as
rate-limited, the classifier signals success (no failover), enqueues a usage
increment for the account, and enqueues a rate-limit-meta update if and only
if the signal's status tag is truthy. -/
theorem c4_success_classification (p : Provider) (r : Response) (a : Account)
    (hs : r.status = 200) (hrl : rateLimitBranch p r = false) :
    (processProxyResponse p r a).1 = false
    ∧ DbOp.updateAccountUsage a.id ∈ (processProxyResponse p r a).2
    ∧ ((∃ s rt rem, DbOp.updateAccountRateLimitMeta a.id s rt rem
          ∈ (processProxyResponse p r a).2)
        ↔ optStrTruthy (p.parseRateLimit r).statusHeader = true) := by
  have hops := processProxyResponse_success p r a hrl hs
  rw [hops]
  refine ⟨rfl, ?_, ?_⟩
  · show DbOp.updateAccountUsage a.id ∈ updateAccountMetadata p a r
    unfold updateAccountMetadata
    exact List.mem_cons_self _ _
  · exact meta_mem_updateAccountMetadata p a r

/-- C4 witness: a non-rate-limited 200 whose signal carries a status header
is classified as success with a usage increment and a meta update. -/
theorem c4_witness :
    ((⟨200⟩ : Response).status = 200 ∧ rateLimitBranch (provOf sigOK) ⟨200⟩ = false)
    ∧ ((processProxyResponse (provOf sigOK) ⟨200⟩ acctA).1 = false
      ∧ DbOp.updateAccountUsage acctA.id
          ∈ (processProxyResponse (provOf sigOK) ⟨200⟩ acctA).2
      ∧ ((∃ s rt rem, DbOp.updateAccountRateLimitMeta acctA.id s rt rem
            ∈ (processProxyResponse (provOf sigOK) ⟨200⟩ acctA).2)
          ↔ optStrTruthy ((provOf sigOK).parseRateLimit ⟨200⟩).statusHeader = true)) :=
  ⟨⟨by decide, by decide⟩,
   c4_success_classification (provOf sigOK) ⟨200⟩ acctA (by decide) (by decide)⟩

/-- C9: for every response the provider classifies as streaming, the
rate-limit branch is never taken: no `mark_rate_limited` operation is
enqueued, failover is signalled exactly when the status is not 200, and a
non-200 streaming response enqueues no operation at all. -/
theorem c9_streaming_skips_rate_limit (p : Provider) (r : Response)
    (a : Account) (h : isStreamB p r = true) :
    (∀ id t, DbOp.markAccountRateLimited id t ∉ (processProxyResponse p r a).2)
    ∧ ((processProxyResponse p r a).1 = true ↔ r.status ≠ 200)
    ∧ (r.status ≠ 200 → processProxyResponse p r a = (true, [])) := by
  have hrl := rateLimitBranch_of_stream p r h
  by_cases hs : r.status = 200
  · have hops := processProxyResponse_success p r a hrl hs
    rw [hops]
    refine ⟨?_, ?_, ?_⟩
    · intro id t
      exact mark_not_mem_updateAccountMetadata p a r id t
    · simp [hs]
    · intro hns
      exact absurd hs hns
  · have hops := processProxyResponse_nonSuccess p r a hrl hs
    rw [hops]
    refine ⟨?_, ?_, fun _ => rfl⟩
    · intro id t
      simp
    · simp [hs]

/-- C9 witness: a streaming 429 with a rate-limited signal enqueues nothing
and fails over purely by status. -/
theorem c9_witness :
    isStreamB provStream ⟨429⟩ = true
    ∧ ((∀ id t, DbOp.markAccountRateLimited id t
          ∉ (processProxyResponse provStream ⟨429⟩ acctA).2)
      ∧ ((processProxyResponse provStream ⟨429⟩ acctA).1 = true
          ↔ (⟨429⟩ : Response).status ≠ 200)
      ∧ ((⟨429⟩ : Response).status ≠ 200
          → processProxyResponse provStream ⟨429⟩ acctA = (true, []))) :=
  ⟨by decide, c9_streaming_skips_rate_limit provStream ⟨429⟩ acctA (by decide)⟩

/-- C2 (amended): for every request whose failover attempts are all plain
non-success (the rate-limit branch is not taken) and whose final attempt
succeeds, the winner is the final account and exactly one usage increment is
enqueued, for that account.  (A rate-limited failover attempt, by contrast,
also enqueues a usage increment for its own account, since the code bundles
the usage counter into the metadata update it performs for rate-limited
responses.) -/
theorem c2_usage_attribution (p : Provider)
    (attempts : List (Account × Response)) (la : Account) (lr : Response)
    (hfail : ∀ ar ∈ attempts, rateLimitBranch p ar.2 = false ∧ ar.2.status ≠ 200)
    (hrl : rateLimitBranch p lr = false) (hs : lr.status = 200) :
    (runFailover p (attempts ++ [(la, lr)])).1 = some la
    ∧ ((runFailover p (attempts ++ [(la, lr)])).2.filter isUsageOp)
        = [DbOp.updateAccountUsage la.id] := by
  induction attempts with
  | nil =>
    rw [List.nil_append]
    have hops := processProxyResponse_success p lr la hrl hs
    simp only [runFailover, hops]
    exact ⟨rfl, usage_filter_updateAccountMetadata p la lr⟩
  | cons hd tl ih =>
    obtain ⟨a0, r0⟩ := hd
    have hh := hfail (a0, r0) (List.mem_cons_self _ _)
    have hops := processProxyResponse_nonSuccess p r0 a0 hh.1 hh.2
    have ihh := ih fun ar har => hfail ar (List.mem_cons_of_mem _ har)
    rw [List.cons_append]
    simp only [runFailover, hops, if_true, List.nil_append]
    exact ⟨ihh.1, ihh.2⟩

/-- C2 witness: one plain 500 failover on account A followed by a 200 on
account B yields exactly one usage increment, for B. -/
theorem c2_witness :
    ((∀ ar ∈ [(acctA, (⟨500⟩ : Response))],
        rateLimitBranch provPlain ar.2 = false ∧ ar.2.status ≠ 200)
      ∧ rateLimitBranch provPlain ⟨200⟩ = false
      ∧ (⟨200⟩ : Response).status = 200)
    ∧ ((runFailover provPlain [(acctA, ⟨500⟩), (acctB, ⟨200⟩)]).1 = some acctB
      ∧ ((runFailover provPlain [(acctA, ⟨500⟩), (acctB, ⟨200⟩)]).2.filter
          isUsageOp) = [DbOp.updateAccountUsage acctB.id]) :=
  ⟨⟨by decide, by decide, by decide⟩,
   c2_usage_attribution provPlain [(acctA, ⟨500⟩)] acctB ⟨200⟩
     (by decide) (by decide) (by decide)⟩

/-- C2 counterexample: a request that fails over once on a rate-limited 429
(account A) and then succeeds with a 200 (account B) enqueues two usage
increments, one of them for the failed-over account A — contradicting the
claim that no failover attempt enqueues a usage increment and that exactly
one increment is enqueued. -/
theorem c2_counterexample :
    (runFailover provByStatus [(acctA, ⟨429⟩), (acctB, ⟨200⟩)]).1 = some acctB
    ∧ ((runFailover provByStatus [(acctA, ⟨429⟩), (acctB, ⟨200⟩)]).2.filter
        isUsageOp)
      = [DbOp.updateAccountUsage "acc-1", DbOp.updateAccountUsage "acc-2"] := by
  decide

/-- C5: every error during token acquisition, forwarding or delivery is
absorbed by `proxyWithAccount`, which returns `none` (continue with the next
candidate); in general the attempt returns exactly the body's enqueued
operations with the body's value flattened, never re-raising. -/
theorem c5_attempt_absorbs_errors :
    ∀ (p : Provider) (a : Account) (e : ProxyAttemptError)
      (fwd : Except ProxyAttemptError Response)
      (dlv : Response → Except ProxyAttemptError Response)
      (tok : Option String) (resp : Response),
    proxyWithAccount p a (Except.error e) fwd dlv = ([], none)
    ∧ proxyWithAccount p a (Except.ok tok) (Except.error e) dlv = ([], none)
    ∧ proxyWithAccount p a (Except.ok tok) (Except.ok resp)
        (fun _ => Except.error e) = ((processProxyResponse p resp a).2, none)
    ∧ ∀ (tokenResult : Except ProxyAttemptError (Option String)),
        proxyWithAccount p a tokenResult fwd dlv
          = ((proxyWithAccountBody p a tokenResult fwd dlv).1,
             ((proxyWithAccountBody p a tokenResult fwd dlv).2.toOption).join) := by
  intro p a e fwd dlv tok resp
  refine ⟨rfl, rfl, ?_, ?_⟩
  · unfold proxyWithAccount proxyWithAccountBody
    cases hfo : (processProxyResponse p resp a).1 <;> simp [hfo]
  · intro tokenResult
    unfold proxyWithAccount
    cases hbody : proxyWithAccountBody p a tokenResult fwd dlv with
    | mk ops res =>
      cases res <;> simp [Except.toOption, Option.join]

/-- C6: an unauthenticated pass-through prepares headers with neither an
`authorization` nor an `x-api-key` entry, attributes the forwarded result to
`account := none` (usage record with a null account), and surfaces an
upstream failure as a `ProviderError` with HTTP status 502. -/
theorem c6_unauthenticated_pass_through :
    ∀ (incoming : List (String × String)) (pname : String) (resp : Response)
      (err : String),
    ((proxyUnauthenticated incoming (Except.ok resp) pname).1.all
        fun h => !(h.1 == "authorization") && !(h.1 == "x-api-key")) = true
    ∧ (proxyUnauthenticated incoming (Except.ok resp) pname).2
        = Except.ok { account := none, response := resp, retryAttempt := 0,
                      failoverAttempts := 0 }
    ∧ (proxyUnauthenticated incoming (Except.error err) pname).2
        = Except.error { message := UNAUTHENTICATED_FAILED,
                         providerName := pname, statusCode := 502 } := by
  intro incoming pname resp err
  refine ⟨?_, rfl, rfl⟩
  show ((prepareHeaders incoming none none).all
      fun h => !(h.1 == "authorization") && !(h.1 == "x-api-key")) = true
  unfold prepareHeaders
  rw [List.all_eq_true]
  intro x hx
  rw [List.mem_filter] at hx
  have h2 := hx.2
  simp only [Bool.not_eq_true', Bool.or_eq_false_iff] at h2
  simp [h2.1.2, h2.2]

/-- C7: an oauth-mode account row is stored with a null api key and non-null
access token, refresh token and expiry, while an api-key-mode account row is
stored with a non-null api key and null access token, refresh token and
expiry; both start with zero request counters. -/
theorem c7_auth_type_invariant :
    ∀ (table : List AccountRow) (id name : String) (tokens : OAuthTokens)
      (tier : Nat) (baseUrl : Option String) (now : Nat) (apiKey : String),
    (∃ row,
      (OAuthFlow.createAccountWithOAuth table id name tokens tier baseUrl now).2
          = table ++ [row]
      ∧ row.api_key = none ∧ row.refresh_token.isSome = true
      ∧ row.access_token.isSome = true ∧ row.expires_at.isSome = true
      ∧ row.request_count = 0 ∧ row.total_requests = 0)
    ∧ (∃ row,
      (OAuthFlow.createAccountWithApiKey table id name apiKey tier baseUrl now).2
          = table ++ [row]
      ∧ row.api_key.isSome = true ∧ row.refresh_token = none
      ∧ row.access_token = none ∧ row.expires_at = none
      ∧ row.request_count = 0 ∧ row.total_requests = 0) := by
  intro table id name tokens tier baseUrl now apiKey
  exact ⟨⟨_, rfl, rfl, rfl, rfl, rfl, rfl, rfl⟩,
         ⟨_, rfl, rfl, rfl, rfl, rfl, rfl, rfl⟩⟩

/-- C8: `begin` with a name equal to that of a stored account yields the
duplicate-name error; `begin` never writes to the accounts table; `begin`
succeeds only when the name is not among the stored accounts. -/
theorem c8_begin_unique_name (table : List AccountRow) (name : String)
    (mode : Mode) (baseUrl : Option String) (pexists : Bool)
    (authUrl sessionId : String) :
    ((table.any fun a => a.name == name) = true
      → (OAuthFlow.begin table name mode baseUrl pexists authUrl sessionId).1
          = Except.error ("Account with name " ++ name ++ " already exists"))
    ∧ (OAuthFlow.begin table name mode baseUrl pexists authUrl sessionId).2
        = table
    ∧ (∀ res,
        (OAuthFlow.begin table name mode baseUrl pexists authUrl sessionId).1
            = Except.ok res
        → (table.any fun a => a.name == name) = false) := by
  refine ⟨?_, ?_, ?_⟩
  · intro h
    simp [OAuthFlow.begin, h]
  · unfold OAuthFlow.begin
    split
    · rfl
    · split
      · rfl
      · rfl
  · intro res h
    by_contra hc
    have hdup : (table.any fun a => a.name == name) = true := by
      revert hc
      cases table.any fun a => a.name == name <;> simp
    simp [OAuthFlow.begin, hdup] at h

/-- C8 witness: with one stored account named A, `begin` for the name A
errors and the table is unchanged. -/
theorem c8_witness :
    (([rowA].any fun a => a.name == "A") = true
      → (OAuthFlow.begin [rowA] "A" Mode.max none true "url" "sid").1
          = Except.error ("Account with name " ++ "A" ++ " already exists"))
    ∧ (OAuthFlow.begin [rowA] "A" Mode.max none true "url" "sid").2 = [rowA]
    ∧ (([rowA].any fun a => a.name == "A") = true
      ∧ (OAuthFlow.begin [rowA] "A" Mode.max none true "url" "sid").1
          = Except.error ("Account with name " ++ "A" ++ " already exists")) :=
  ⟨(c8_begin_unique_name [rowA] "A" Mode.max none true "url" "sid").1,
   (c8_begin_unique_name [rowA] "A" Mode.max none true "url" "sid").2.1,
   by decide,
   (c8_begin_unique_name [rowA] "A" Mode.max none true "url" "sid").1 (by decide)⟩

/-- C10: `complete` on the console-mode path (mode console, or the exchange
yielded no truthy refresh token) with a truthy custom base URL errors and
leaves the accounts table unchanged — no row is inserted. -/
theorem c10_console_custom_base_url (table : List AccountRow)
    (flowData : BeginResult) (name : String) (tier : Nat) (pexists : Bool)
    (exchangeResult : Except String OAuthTokens)
    (apiKeyResult : Except String String) (accountId : String) (now : Nat)
    (hmode : flowData.mode = Mode.console
      ∨ ∀ tokens, exchangeResult = Except.ok tokens
          → optStrTruthy tokens.refreshToken = false)
    (hbase : optStrTruthy flowData.baseUrl = true) :
    (∃ e, (OAuthFlow.complete table flowData name tier pexists exchangeResult
            apiKeyResult accountId now).1 = Except.error e)
    ∧ (OAuthFlow.complete table flowData name tier pexists exchangeResult
        apiKeyResult accountId now).2 = table := by
  unfold OAuthFlow.complete
  cases pexists
  · simp
  · cases exchangeResult with
    | error e => simp
    | ok tokens =>
      have hcons : (flowData.mode == Mode.console
          || !optStrTruthy tokens.refreshToken) = true := by
        rcases hmode with hm | hm
        · simp [hm]
        · simp [hm tokens rfl]
      simp [hcons, hbase]

/-- C10 witness: a console-mode flow carrying a custom base URL makes
`complete` fail with the table untouched. -/
theorem c10_witness :
    ((flowConsole.mode = Mode.console
        ∨ ∀ tokens,
            (Except.ok tokensMax : Except String OAuthTokens) = Except.ok tokens
            → optStrTruthy tokens.refreshToken = false)
      ∧ optStrTruthy flowConsole.baseUrl = true)
    ∧ ((∃ e, (OAuthFlow.complete [] flowConsole "A" 1 true (Except.ok tokensMax)
              (Except.ok "sk-key") "id-1" 0).1 = Except.error e)
      ∧ (OAuthFlow.complete [] flowConsole "A" 1 true (Except.ok tokensMax)
          (Except.ok "sk-key") "id-1" 0).2 = []) :=
  ⟨⟨Or.inl rfl, by decide⟩,
   c10_console_custom_base_url [] flowConsole "A" 1 true (Except.ok tokensMax)
     (Except.ok "sk-key") "id-1" 0 (Or.inl rfl) (by decide)⟩

end Ccflare
